import Mathlib

/-!
Shallow embedding of `src/main.py`, a MicroPython bridge that decodes
Ruuvi BLE advertisements (data format 5) and serves the latest decoded
sample over a minimal HTTP interface.

Modelling conventions:
* Python byte strings become `List Nat` (each element a byte value).
* Python slices `data[a:b]` become `(data.drop a).take (b - a)`, which,
  like Python, clamps at the end of the list.
* Python floats become `ℚ` (exact decimal arithmetic; the decimal
  literals `0.005`, `0.0025` of the source are exactly representable).
* A Python exception raised inside the `try` of `parse_ruuvi_data` is
  the `.error ()` outcome of `Except Unit`; the surrounding
  `except Exception` catches it, so the caller never sees an exception.
* The scanner's mutable fields `latest_data` / `data_received` become an
  explicit `ScannerState` record threaded through the functions.
-/

/-- Big-endian `int.from_bytes(bs, 'big')`: fold `acc * 256 + b` over the
byte list; the empty list yields `0`, as in Python. -/
def fromBytesBE (bs : List Nat) : Nat :=
  bs.foldl (fun acc b => acc * 256 + b) 0

/-- Constant `RUUVI_DATA_FORMAT = 5` from main.py line 18. -/
def RUUVI_DATA_FORMAT : Nat := 5

/-- The decoded sample: the dictionary stored in `self.latest_data`
(main.py lines 70-74), with `pressure` already divided by 100. -/
structure RuuviSample where
  temperature : ℚ
  humidity : ℚ
  pressure : ℚ
deriving DecidableEq

/-- Construction of the sample from the manufacturer-specific value bytes
`mfg_data` (main.py lines 63-74):
`temp = int.from_bytes(mfg_data[3:5], 'big') * 0.005`, then the (scaled)
value is compared with `32767` and `65536` is subtracted when greater;
`humidity = int.from_bytes(mfg_data[5:7], 'big') * 0.0025`;
`pressure = int.from_bytes(mfg_data[7:9], 'big') + 50000`, stored as
`pressure / 100`. -/
def mkSample (mfg_data : List Nat) : RuuviSample :=
  let temp0 : ℚ := (fromBytesBE ((mfg_data.drop 3).take 2) : ℚ) * 0.005
  let temp : ℚ := if temp0 > 32767 then temp0 - 65536 else temp0
  let humidity : ℚ := (fromBytesBE ((mfg_data.drop 5).take 2) : ℚ) * 0.0025
  let pressure : ℚ := (fromBytesBE ((mfg_data.drop 7).take 2) : ℚ) + 50000
  { temperature := temp, humidity := humidity, pressure := pressure / 100 }

/-- One iteration of the body of the `while` loop of `parse_ruuvi_data`
(main.py lines 53-77), for the AD structure starting at offset `i` whose
length byte is `length`.  Result:
* `some (.ok (some s))` — the structure decoded to sample `s` (the Python
  code assigns `latest_data` and returns);
* `some (.error ())` — `mfg_data[2]` raised `IndexError` (vendor prefix
  matched but the clamped slice has fewer than 3 bytes), aborting the
  whole parse into the `except` handler;
* `none` — the structure does not resolve and the loop falls through to
  `i += length + 1`. -/
def stepStruct (data : List Nat) (i : Nat) (length : Nat) :
    Option (Except Unit (Option RuuviSample)) :=
  if i + 1 < data.length then
    if data.getD (i + 1) 0 = 0xFF then
      let mfg_data := (data.drop (i + 2)).take (length - 1)
      if mfg_data.take 2 = [0x99, 0x04] then
        match mfg_data.get? 2 with
        | none => some (.error ())
        | some fmt =>
          if fmt = RUUVI_DATA_FORMAT then some (.ok (some (mkSample mfg_data)))
          else none
      else none
    else none
  else none

/-- The AD-structure walk of `parse_ruuvi_data` (main.py lines 51-79)
starting at offset `i`: while `i < len(data)` examine the structure at
`i` (via `stepStruct`) and otherwise advance `i += data[i] + 1`;
falling off the end is the "No Ruuvi data found in packet" outcome,
modelled `.ok none`. -/
def parseFrom (data : List Nat) (i : Nat) : Except Unit (Option RuuviSample) :=
  if h : i < data.length then
    match stepStruct data i (data.get ⟨i, h⟩) with
    | some r => r
    | none => parseFrom data (i + data.get ⟨i, h⟩ + 1)
  else .ok none
termination_by data.length - i
decreasing_by simp_wf; omega

/-- Fuel-indexed version of the same walk, structurally recursive on
`fuel`; `none` means the fuel ran out before the loop finished.  Used to
state that the walk terminates within `data.length` iterations. -/
def parseFromFuel : Nat → List Nat → Nat → Option (Except Unit (Option RuuviSample))
  | fuel, data, i =>
    if h : i < data.length then
      match stepStruct data i (data.get ⟨i, h⟩) with
      | some r => some r
      | none =>
        match fuel with
        | 0 => none
        | fuel' + 1 => parseFromFuel fuel' data (i + data.get ⟨i, h⟩ + 1)
    else some (.ok none)

/-- Walk-relative notion of "the payload contains a Manufacturer Specific
Data structure with the Ruuvi vendor identifier": some structure visited
by the iteration `i += data[i] + 1` has type byte `0xFF` and value bytes
beginning `0x99 0x04`. -/
def containsVendorStruct (data : List Nat) (i : Nat) : Bool :=
  if h : i < data.length then
    if i + 1 < data.length ∧ data.getD (i + 1) 0 = 0xFF ∧
        (((data.drop (i + 2)).take (data.get ⟨i, h⟩ - 1)).take 2 = [0x99, 0x04]) then
      true
    else containsVendorStruct data (i + data.get ⟨i, h⟩ + 1)
  else false
termination_by data.length - i
decreasing_by simp_wf; omega

/-- Fuel-indexed version of `containsVendorStruct`, structurally recursive
on `fuel`, used to evaluate the predicate on concrete payloads. -/
def containsVendorStructFuel : Nat → List Nat → Nat → Option Bool
  | fuel, data, i =>
    if h : i < data.length then
      if i + 1 < data.length ∧ data.getD (i + 1) 0 = 0xFF ∧
          (((data.drop (i + 2)).take (data.get ⟨i, h⟩ - 1)).take 2 = [0x99, 0x04]) then
        some true
      else
        match fuel with
        | 0 => none
        | fuel' + 1 => containsVendorStructFuel fuel' data (i + data.get ⟨i, h⟩ + 1)
    else some false

/-- Mutable state of `BLEScanner`: `latest_data` (initially `None`) and
the freshness flag `data_received`. -/
structure ScannerState where
  latest_data : Option RuuviSample
  data_received : Bool
deriving DecidableEq

/-- Method `parse_ruuvi_data` (main.py lines 47-81) as a state
transformer: on a successful decode it stores the sample and sets
`data_received = True`; when the walk falls through ("No Ruuvi data
found") or an exception is caught ("Error parsing data") the state is
left untouched. -/
def parse_ruuvi_data (s : ScannerState) (data : List Nat) : ScannerState :=
  match parseFrom data 0 with
  | .ok (some sample) => { latest_data := some sample, data_received := true }
  | .ok none => s
  | .error _ => s

/-- Python `'%02x' % i`: lowercase hexadecimal, zero-padded to width 2. -/
def hexByte2 (n : Nat) : String :=
  let s := String.mk (Nat.toDigits 16 n)
  if s.length < 2 then "0" ++ s else s

/-- Address formatting `':'.join(['%02x' % i for i in addr])`
(main.py line 40). -/
def formatAddr (addr : List Nat) : String :=
  String.intercalate ":" (addr.map hexByte2)

/-- The `_IRQ_SCAN_RESULT` branch of `BLEScanner.ble_irq` (main.py lines
38-43): format the source address, compare case-insensitively with the
configured `RUUVI_MAC` (here the parameter `target`), and on a match feed
the advertising payload to `parse_ruuvi_data`; otherwise ignore the
packet. -/
def ble_irq (target : String) (s : ScannerState) (addr : List Nat)
    (adv_data : List Nat) : ScannerState :=
  if (formatAddr addr).toLower = target.toLower then parse_ruuvi_data s adv_data
  else s

/-- Python `scanner.latest_data['field'] if scanner.latest_data else None`
(main.py lines 154-156), one field at a time. -/
def response_value (latest_data : Option RuuviSample) (field : RuuviSample → ℚ) :
    Option ℚ :=
  match latest_data with
  | some d => some (field d)
  | none => none

/-- JSON rendering of one optional numeric field: `None` becomes `null`,
a number is rendered by the supplied `render` (abstracting the
floating-point repr of `json.dumps`). -/
def renderOptNum (render : ℚ → String) : Option ℚ → String
  | none => "null"
  | some q => render q

/-- Body produced by `json.dumps(response)` (main.py lines 153-159) for
the fixed-shape three-key dictionary, with insertion-ordered keys and the
separators `", "` and `": "` of the Python serializer. -/
def response_json (render : ℚ → String) (latest_data : Option RuuviSample) :
    String :=
  "\x7b\"temperature\": " ++
    renderOptNum render (response_value latest_data RuuviSample.temperature) ++
  ", \"humidity\": " ++
    renderOptNum render (response_value latest_data RuuviSample.humidity) ++
  ", \"pressure\": " ++
    renderOptNum render (response_value latest_data RuuviSample.pressure) ++
  "\x7d"

/-- The full response string of main.py line 160: status line, headers,
blank line, JSON body. -/
def response_str (render : ℚ → String) (latest_data : Option RuuviSample) :
    String :=
  "HTTP/1.0 200 OK\r\nContent-Type: application/json\r\nContent-Length: " ++
  toString (response_json render latest_data).length ++
  "\r\nAccess-Control-Allow-Origin: *\r\n\r\n" ++
  response_json render latest_data

/-- Request handling in `start_webserver` (main.py lines 139-165): the
scan triggered by the request lets zero or more discovery callbacks run
(`packets`, each a source address paired with a payload, folded through
`ble_irq`); the loop then builds the response from `latest_data` and —
its only own write to scanner state — resets `data_received = False`. -/
def handle_request (render : ℚ → String) (target : String) (s : ScannerState)
    (packets : List (List Nat × List Nat)) : ScannerState × String :=
  let s1 := packets.foldl (fun st pk => ble_irq target st pk.1 pk.2) s
  ({ latest_data := s1.latest_data, data_received := false },
   response_str render s1.latest_data)

/-- Decidable equality for `Except`, needed to evaluate decode results on
concrete payloads. -/
instance exceptDecEq {e a : Type} [DecidableEq e] [DecidableEq a] :
    DecidableEq (Except e a) := fun x y =>
  match x, y with
  | .ok u, .ok v =>
    if h : u = v then .isTrue (by rw [h]) else .isFalse (by simp [h])
  | .error u, .error v =>
    if h : u = v then .isTrue (by rw [h]) else .isFalse (by simp [h])
  | .ok _, .error _ => .isFalse (by simp)
  | .error _, .ok _ => .isFalse (by simp)

/-- Fixture payload: one AD structure of length `0x0A`, type `0xFF`,
vendor `0x99 0x04`, format 5, temperature raw `0x0139`, humidity raw
`0x1770`, pressure raw `0x4E20`. -/
def fixturePos : List Nat :=
  [0x0A, 0xFF, 0x99, 0x04, 0x05, 0x01, 0x39, 0x17, 0x70, 0x4E, 0x20]

/-- Same fixture with temperature raw `0xFF9C` (negative per the spec's
two's-complement reading). -/
def fixtureNeg : List Nat :=
  [0x0A, 0xFF, 0x99, 0x04, 0x05, 0xFF, 0x9C, 0x17, 0x70, 0x4E, 0x20]

/-- Fixture whose single AD structure declares length `0x20`, extending
well past the 11-byte payload, while the clamped manufacturer bytes still
hold a complete format-5 record. -/
def truncFixture : List Nat :=
  [0x20, 0xFF, 0x99, 0x04, 0x05, 0x01, 0x39, 0x17, 0x70, 0x4E, 0x20]

/-- Fixture identical to `fixturePos` but with format byte 6. -/
def fmt6Fixture : List Nat :=
  [0x0A, 0xFF, 0x99, 0x04, 0x06, 0x01, 0x39, 0x17, 0x70, 0x4E, 0x20]

/-- Short payload whose single length byte `5` exceeds the remaining
bytes. -/
def shortFixture : List Nat := [0x05, 0xFF]

/-! Helper lemmas -/

/-- Running the walk with fuel at least `data.length - i` computes the same
result as the walk itself: every iteration advances the offset by
`data[i] + 1 ≥ 1`, so at most `data.length - i` iterations occur. -/
theorem parseFromFuel_spec (fuel : Nat) (data : List Nat) (i : Nat)
    (h : data.length - i ≤ fuel) :
    parseFromFuel fuel data i = some (parseFrom data i) := by
  induction fuel generalizing i with
  | zero =>
    have hi : ¬ i < data.length := by omega
    unfold parseFromFuel parseFrom
    simp [hi]
  | succ fuel ih =>
    unfold parseFromFuel parseFrom
    by_cases hi : i < data.length
    · simp only [hi, dite_true]
      cases hst : stepStruct data i (data.get ⟨i, hi⟩) with
      | some r => rfl
      | none => exact ih _ (by omega)
    · simp [hi]

/-- Evaluation principle: a fueled run with fuel `data.length` determines
the decode result. -/
theorem parseFrom_eval (data : List Nat) (r : Except Unit (Option RuuviSample))
    (h : parseFromFuel data.length data 0 = some r) : parseFrom data 0 = r := by
  have h2 := parseFromFuel_spec data.length data 0 (by omega)
  rw [h] at h2
  exact (Option.some_inj.mp h2).symm

/-- Sample decoded from the fixture manufacturer bytes with temperature
raw `0x0139`. -/
theorem mkSample_pos :
    mkSample [0x99, 0x04, 0x05, 0x01, 0x39, 0x17, 0x70, 0x4E, 0x20] =
      ⟨313/200, 15, 700⟩ := by
  norm_num [mkSample, fromBytesBE, RuuviSample.mk.injEq]

/-- Sample decoded from the fixture manufacturer bytes with temperature
raw `0xFF9C`; the scaled value `327.18` is not above `32767`, so the
subtraction branch of the source does not fire. -/
theorem mkSample_neg :
    mkSample [0x99, 0x04, 0x05, 0xFF, 0x9C, 0x17, 0x70, 0x4E, 0x20] =
      ⟨16359/50, 15, 700⟩ := by
  norm_num [mkSample, fromBytesBE, RuuviSample.mk.injEq]

/-- Decode result of `fixturePos`. -/
theorem parseFrom_fixturePos :
    parseFrom fixturePos 0 = .ok (some ⟨313/200, 15, 700⟩) := by
  apply parseFrom_eval
  have h1 : parseFromFuel fixturePos.length fixturePos 0 =
      some (.ok (some (mkSample [0x99, 0x04, 0x05, 0x01, 0x39, 0x17, 0x70, 0x4E, 0x20]))) :=
    rfl
  rw [h1, mkSample_pos]

/-- Decode result of `fixtureNeg`. -/
theorem parseFrom_fixtureNeg :
    parseFrom fixtureNeg 0 = .ok (some ⟨16359/50, 15, 700⟩) := by
  apply parseFrom_eval
  have h1 : parseFromFuel fixtureNeg.length fixtureNeg 0 =
      some (.ok (some (mkSample [0x99, 0x04, 0x05, 0xFF, 0x9C, 0x17, 0x70, 0x4E, 0x20]))) :=
    rfl
  rw [h1, mkSample_neg]

/-- Decode result of `truncFixture`: the declared length `0x20` overruns
the payload, yet the clamped slice still decodes to a sample. -/
theorem parseFrom_truncFixture :
    parseFrom truncFixture 0 = .ok (some ⟨313/200, 15, 700⟩) := by
  apply parseFrom_eval
  have h1 : parseFromFuel truncFixture.length truncFixture 0 =
      some (.ok (some (mkSample [0x99, 0x04, 0x05, 0x01, 0x39, 0x17, 0x70, 0x4E, 0x20]))) :=
    rfl
  rw [h1, mkSample_pos]

/-- Decode result of `fmt6Fixture`: unsupported format byte, walk falls
through to the not-found outcome. -/
theorem parseFrom_fmt6 : parseFrom fmt6Fixture 0 = .ok none :=
  parseFrom_eval _ _ (by decide)

/-- Decode result of `shortFixture`. -/
theorem parseFrom_short : parseFrom shortFixture 0 = .ok none :=
  parseFrom_eval _ _ (by decide)

/-- Decode result of the empty payload. -/
theorem parseFrom_nil : parseFrom [] 0 = .ok none :=
  parseFrom_eval _ _ (by decide)

/-- A walk starting at or past the end of the payload finds nothing. -/
theorem parseFrom_out (data : List Nat) (i : Nat) (h : ¬ i < data.length) :
    parseFrom data i = .ok none := by
  unfold parseFrom
  simp [h]

/-- Fueled and direct versions of `containsVendorStruct` agree once the
fuel covers the remaining offsets. -/
theorem containsVendorStructFuel_spec (fuel : Nat) (data : List Nat) (i : Nat)
    (h : data.length - i ≤ fuel) :
    containsVendorStructFuel fuel data i = some (containsVendorStruct data i) := by
  induction fuel generalizing i with
  | zero =>
    have hi : ¬ i < data.length := by omega
    unfold containsVendorStructFuel containsVendorStruct
    simp [hi]
  | succ fuel ih =>
    unfold containsVendorStructFuel containsVendorStruct
    by_cases hi : i < data.length
    · rw [dif_pos hi, dif_pos hi]
      by_cases hc : i + 1 < data.length ∧ data.getD (i + 1) 0 = 0xFF ∧
          (((data.drop (i + 2)).take (data.get ⟨i, hi⟩ - 1)).take 2 = [0x99, 0x04])
      · rw [if_pos hc, if_pos hc]
      · rw [if_neg hc, if_neg hc]
        exact ih _ (by omega)
    · rw [dif_neg hi, dif_neg hi]

/-- Evaluation principle for `containsVendorStruct` on concrete payloads. -/
theorem containsVendorStruct_eval (data : List Nat) (b : Bool)
    (h : containsVendorStructFuel data.length data 0 = some b) :
    containsVendorStruct data 0 = b := by
  have h2 := containsVendorStructFuel_spec data.length data 0 (by omega)
  rw [h] at h2
  exact (Option.some_inj.mp h2).symm

/-- A structure that does not match the Manufacturer Specific Data / Ruuvi
vendor conditions is skipped by the loop body. -/
theorem stepStruct_none_of_noVendor (data : List Nat) (i len : Nat)
    (hcond : ¬(i + 1 < data.length ∧ data.getD (i + 1) 0 = 0xFF ∧
      ((data.drop (i + 2)).take (len - 1)).take 2 = [0x99, 0x04])) :
    stepStruct data i len = none := by
  unfold stepStruct
  by_cases h1 : i + 1 < data.length
  · rw [if_pos h1]
    by_cases h2 : data.getD (i + 1) 0 = 0xFF
    · rw [if_pos h2]
      have h3 : ¬ ((data.drop (i + 2)).take (len - 1)).take 2 = [0x99, 0x04] := by
        intro hc
        exact hcond ⟨h1, h2, hc⟩
      simp only [h3, if_false, ite_false]
    · rw [if_neg h2]
  · rw [if_neg h1]

/-- When the structure at offset `i` is skipped, the decode result from
`i` equals the decode result from the next offset `i + data[i] + 1`. -/
theorem parseFrom_step (data : List Nat) (i : Nat) (h : i < data.length)
    (hstep : stepStruct data i (data.get ⟨i, h⟩) = none) :
    parseFrom data i = parseFrom data (i + data.get ⟨i, h⟩ + 1) := by
  conv_lhs => unfold parseFrom
  rw [dif_pos h, hstep]

/-- A walk that never meets a vendor-matching structure ends in the
"No Ruuvi data found in packet" outcome. -/
theorem noVendor_notFound (data : List Nat) (i : Nat)
    (h : containsVendorStruct data i = false) : parseFrom data i = .ok none := by
  by_cases hi : i < data.length
  · unfold containsVendorStruct at h
    simp only [hi, dite_true] at h
    split at h
    · simp at h
    · rename_i hcond
      have hstep : stepStruct data i (data.get ⟨i, hi⟩) =
          none := stepStruct_none_of_noVendor data i _ hcond
      rw [parseFrom_step data i hi hstep]
      exact noVendor_notFound data (i + data.get ⟨i, hi⟩ + 1) h
  · unfold parseFrom
    simp [hi]
termination_by data.length - i
decreasing_by simp_wf; omega

/-! Claim theorems -/

/-- C1: the spec claims the two's-complement correction applies to the raw
16-bit temperature before scaling, so raw `0xFF9C` should decode to
`(0xFF9C - 65536) * 0.005 = -0.5`.  The code instead scales first and
compares the scaled value with `32767`, so the correction never fires:
the fixture with raw `0xFF9C` decodes to the positive `327.18`, while the
positive fixture raw `0x0139` does give `1.565` as claimed. -/
theorem C1_temp_twos_complement_bug :
    parseFrom fixtureNeg 0 = .ok (some ⟨16359/50, 15, 700⟩) ∧
    ((16359 : ℚ)/50 > 0 ∧ (16359 : ℚ)/50 ≠ ((0xFF9C : ℚ) - 65536) * 0.005) ∧
    parseFrom fixturePos 0 = .ok (some ⟨313/200, 15, 700⟩) ∧
    (313 : ℚ)/200 = (0x0139 : ℚ) * 0.005 := by
  refine ⟨parseFrom_fixtureNeg, ⟨by norm_num, by norm_num⟩,
    parseFrom_fixturePos, by norm_num⟩

/-- C2 counterexample: `truncFixture` declares length `0x20`, which makes
the structure at offset 0 extend far past the 11-byte payload, yet decode
produces a sample from that very structure (the Python slice clamps to
the payload end and the clamped bytes still form a valid record) instead
of a Truncated failure. -/
theorem C2_truncated_counterexample :
    truncFixture.length < 0 + truncFixture.getD 0 0 + 1 ∧
    parseFrom truncFixture 0 = .ok (some ⟨313/200, 15, 700⟩) :=
  ⟨by decide, parseFrom_truncFixture⟩

/-- C2 amended: a structure whose declared length extends past the payload
end is the last structure the scan examines, and the walk reads no bytes
past the end (the model's `drop`/`take` clamp exactly as Python slices
do); the result is that structure's own outcome — possibly a sample, an
internally caught index error, or, when the structure is skipped, the
not-found outcome — never a distinguished Truncated failure. -/
theorem C2_overrun_last_struct (data : List Nat) (i : Nat)
    (h : i < data.length)
    (hover : data.length < i + data.get ⟨i, h⟩ + 1) :
    parseFrom data i = (stepStruct data i (data.get ⟨i, h⟩)).getD (.ok none) := by
  conv_lhs => unfold parseFrom
  rw [dif_pos h]
  cases hst : stepStruct data i (data.get ⟨i, h⟩) with
  | some r => rfl
  | none => exact parseFrom_out data (i + data.get ⟨i, h⟩ + 1) (by omega)

/-- Witness for C2's amended theorem: `shortFixture = [0x05, 0xFF]` has a
length byte exceeding the remaining bytes; its scan ends with that
structure and yields the not-found outcome. -/
theorem C2_overrun_witness :
    shortFixture.length < 0 + shortFixture.getD 0 0 + 1 ∧
    parseFrom shortFixture 0 = .ok none := by
  refine ⟨by decide, ?_⟩
  have h := C2_overrun_last_struct shortFixture 0 (by decide) (by decide)
  rw [h]
  decide

/-- C3: the decoder is a total function — a Python exception inside the
walk is caught by `parse_ruuvi_data`, whose caller always receives a
state (either unchanged or updated with a sample) — and every payload
whose walk never meets a Manufacturer Specific Data structure with vendor
bytes `0x99 0x04` decodes to the not-found outcome. -/
theorem C3_no_exception_notFound (data : List Nat) (s : ScannerState) :
    (parse_ruuvi_data s data = s ∨
      ∃ smp, parse_ruuvi_data s data =
        { latest_data := some smp, data_received := true }) ∧
    (containsVendorStruct data 0 = false → parseFrom data 0 = .ok none) := by
  constructor
  · unfold parse_ruuvi_data
    cases hp : parseFrom data 0 with
    | ok v =>
      cases v with
      | some smp => exact Or.inr ⟨smp, rfl⟩
      | none => exact Or.inl rfl
    | error e => exact Or.inl rfl
  · exact noVendor_notFound data 0

/-- Witness for C3: `shortFixture` has a length byte exceeding the
remaining bytes and no vendor match, so decoding finds nothing and the
state is untouched. -/
theorem C3_witness :
    containsVendorStruct shortFixture 0 = false ∧
    parseFrom shortFixture 0 = .ok none ∧
    parse_ruuvi_data ⟨none, false⟩ shortFixture = ⟨none, false⟩ := by
  have hnv : containsVendorStruct shortFixture 0 = false :=
    containsVendorStruct_eval shortFixture false (by decide)
  have h := C3_no_exception_notFound shortFixture ⟨none, false⟩
  have h2 := h.2 hnv
  refine ⟨hnv, h2, ?_⟩
  unfold parse_ruuvi_data
  rw [h2]

/-- C4: a packet whose payload fails to decode (the walk found nothing, or
an internal exception was caught) leaves the scanner state untouched:
`latest_data` and `data_received` keep their previous values. -/
theorem C4_failure_preserves_state (s : ScannerState) (data : List Nat)
    (h : parseFrom data 0 = .ok none ∨ parseFrom data 0 = .error ()) :
    parse_ruuvi_data s data = s := by
  unfold parse_ruuvi_data
  rcases h with h | h <;> rw [h]

/-- Witness for C4: the unsupported-format fixture fails to decode and the
previously stored sample and freshness flag survive. -/
theorem C4_witness :
    (parseFrom fmt6Fixture 0 = .ok none ∨ parseFrom fmt6Fixture 0 = .error ()) ∧
    parse_ruuvi_data ⟨some ⟨1, 2, 3⟩, true⟩ fmt6Fixture = ⟨some ⟨1, 2, 3⟩, true⟩ := by
  have hf : parseFrom fmt6Fixture 0 = .ok none := parseFrom_fmt6
  exact ⟨Or.inl hf, C4_failure_preserves_state _ _ (Or.inl hf)⟩

/-- C5: a Manufacturer Specific Data structure whose vendor bytes match
`0x99 0x04` but whose format byte differs from `5` produces no sample and
no exception: the loop body skips it (the unsupported-format outcome) and
the walk continues at the next structure. -/
theorem C5_unsupported_format_skipped (data : List Nat) (i len fmt : Nat)
    (hvendor : ((data.drop (i + 2)).take (len - 1)).take 2 = [0x99, 0x04])
    (hfmt : ((data.drop (i + 2)).take (len - 1)).get? 2 = some fmt)
    (hne : fmt ≠ RUUVI_DATA_FORMAT) :
    stepStruct data i len = none ∧
    (∀ (h : i < data.length), len = data.get ⟨i, h⟩ →
      parseFrom data i = parseFrom data (i + len + 1)) := by
  have hstep : stepStruct data i len = none := by
    unfold stepStruct
    by_cases h1 : i + 1 < data.length
    · rw [if_pos h1]
      by_cases h2 : data.getD (i + 1) 0 = 0xFF
      · rw [if_pos h2]
        simp only [hvendor, if_true, ite_true, hfmt]
        simp [hne]
      · rw [if_neg h2]
    · rw [if_neg h1]
  refine ⟨hstep, ?_⟩
  intro h hlen
  have hs : stepStruct data i (data.get ⟨i, h⟩) = none := hlen ▸ hstep
  have h2 := parseFrom_step data i h hs
  rwa [← hlen] at h2

/-- Witness for C5: the fixture with format byte 6 is skipped and the walk
moves past it. -/
theorem C5_witness :
    stepStruct fmt6Fixture 0 10 = none ∧
    parseFrom fmt6Fixture 0 = parseFrom fmt6Fixture 11 := by
  have h := C5_unsupported_format_skipped fmt6Fixture 0 10 6
    (by decide) (by decide) (by decide)
  refine ⟨h.1, ?_⟩
  have h2 := h.2 (by decide) (by decide)
  simpa using h2

/-- C6: whatever the number renderer does, a request served with no sample
ever decoded gets exactly the all-null JSON body; the three fields are
null together or present together; and every response starts with the
status line `HTTP/1.0 200 OK`. -/
theorem C6_null_response (render : ℚ → String) (latest_data : Option RuuviSample) :
    (latest_data = none →
      response_json render latest_data =
        "\x7b\"temperature\": null, \"humidity\": null, \"pressure\": null\x7d") ∧
    ((response_value latest_data RuuviSample.temperature = none ∧
      response_value latest_data RuuviSample.humidity = none ∧
      response_value latest_data RuuviSample.pressure = none) ∨
     ((response_value latest_data RuuviSample.temperature).isSome ∧
      (response_value latest_data RuuviSample.humidity).isSome ∧
      (response_value latest_data RuuviSample.pressure).isSome)) ∧
    (∃ rest, response_str render latest_data = "HTTP/1.0 200 OK" ++ rest) := by
  refine ⟨?_, ?_, ?_⟩
  · intro h
    subst h
    rfl
  · cases latest_data with
    | none => exact Or.inl ⟨rfl, rfl, rfl⟩
    | some d => exact Or.inr ⟨rfl, rfl, rfl⟩
  · refine ⟨"\r\nContent-Type: application/json\r\nContent-Length: " ++
      toString (response_json render latest_data).length ++
      "\r\nAccess-Control-Allow-Origin: *\r\n\r\n" ++
      response_json render latest_data, ?_⟩
    unfold response_str
    have hsplit :
        ("HTTP/1.0 200 OK\r\nContent-Type: application/json\r\nContent-Length: " :
          String) =
        "HTTP/1.0 200 OK" ++ "\r\nContent-Type: application/json\r\nContent-Length: " :=
      rfl
    rw [hsplit]
    simp only [String.append_assoc]

/-- Witness for C6: with a trivial renderer and no sample, the body is the
all-null object. -/
theorem C6_witness :
    response_json (fun _ => "") none =
      "\x7b\"temperature\": null, \"humidity\": null, \"pressure\": null\x7d" :=
  (C6_null_response (fun _ => "") none).1 rfl

/-- C7: serving one request resets only the freshness flag: the state the
event loop hands back has `data_received = false` and the same
`latest_data` as the state left by the scan callbacks that ran during the
settle window; the loop itself writes no other field. -/
theorem C7_serve_clears_fresh_only (render : ℚ → String) (target : String)
    (s : ScannerState) (packets : List (List Nat × List Nat)) :
    (handle_request render target s packets).1.data_received = false ∧
    (handle_request render target s packets).1.latest_data =
      (packets.foldl (fun st pk => ble_irq target st pk.1 pk.2) s).latest_data :=
  ⟨rfl, rfl⟩

/-- C8: for every manufacturer byte list, the decoded humidity is the
big-endian value of bytes `[5:7]` times `0.0025` and the decoded pressure
is the big-endian value of bytes `[7:9]` plus `50000`, divided by `100`;
the fixture raws `0x1770` and `0x4E20` give `15.0` and `700.0`. -/
theorem C8_humidity_pressure (mfg_data : List Nat) :
    (mkSample mfg_data).humidity =
      (fromBytesBE ((mfg_data.drop 5).take 2) : ℚ) * 0.0025 ∧
    (mkSample mfg_data).pressure =
      ((fromBytesBE ((mfg_data.drop 7).take 2) : ℚ) + 50000) / 100 ∧
    parseFrom fixturePos 0 = .ok (some ⟨313/200, 15, 700⟩) ∧
    (6000 : ℚ) * 0.0025 = 15 ∧ ((20000 : ℚ) + 50000) / 100 = 700 :=
  ⟨rfl, rfl, parseFrom_fixturePos, by norm_num, by norm_num⟩

/-- C9: a discovered packet is fed to the decoder exactly when its
formatted colon-separated hex address equals the configured target after
lowercasing both sides; otherwise the scanner state is unchanged. -/
theorem C9_address_filter (target : String) (s : ScannerState)
    (addr adv_data : List Nat) :
    ((formatAddr addr).toLower = target.toLower →
      ble_irq target s addr adv_data = parse_ruuvi_data s adv_data) ∧
    ((formatAddr addr).toLower ≠ target.toLower →
      ble_irq target s addr adv_data = s) := by
  constructor <;> intro h <;> simp [ble_irq, h]

/-- Witness for C9: the uppercase configured target `AA:BB:CC:DD:EE:FF`
matches the lowercase formatted address of `[0xAA, .., 0xFF]`. -/
theorem C9_witness :
    (formatAddr [0xAA, 0xBB, 0xCC, 0xDD, 0xEE, 0xFF]).toLower =
      ("AA:BB:CC:DD:EE:FF" : String).toLower ∧
    ble_irq "AA:BB:CC:DD:EE:FF" ⟨none, false⟩
        [0xAA, 0xBB, 0xCC, 0xDD, 0xEE, 0xFF] [] =
      parse_ruuvi_data ⟨none, false⟩ [] := by
  have hm : (formatAddr [0xAA, 0xBB, 0xCC, 0xDD, 0xEE, 0xFF]).toLower =
      ("AA:BB:CC:DD:EE:FF" : String).toLower := by
    simp [String.toLower, String.map_eq]
    decide
  exact ⟨hm, (C9_address_filter "AA:BB:CC:DD:EE:FF" ⟨none, false⟩ _ _).1 hm⟩

/-- C10: the AD-structure walk terminates — each iteration advances the
offset by `data[i] + 1 ≥ 1`, so a fuel of `data.length - i` iterations
always suffices and the fueled walk computes the walk's result. -/
theorem C10_walk_terminates (data : List Nat) (i fuel : Nat)
    (h : data.length - i ≤ fuel) :
    parseFromFuel fuel data i = some (parseFrom data i) :=
  parseFromFuel_spec fuel data i h

/-- Witness for C10: fuel `11` suffices for the 11-byte fixture. -/
theorem C10_witness :
    parseFromFuel 11 fixturePos 0 = some (parseFrom fixturePos 0) :=
  C10_walk_terminates fixturePos 0 11 (by decide)
